import Mathlib

/-!
Verification of the wealth_plus personal-finance application.

Shallow embedding of the authentication/lockout logic, the
ownership-scoped CRUD handlers, the category delete guards, the OTP
verification flow, the CSV field escaping, the month-range derivation
and the aggregation summary, each translated from the repository's
TypeScript source.  Database tables are modelled as lists of rows,
timestamps as natural numbers (milliseconds), JS numbers as rationals,
and fallible handlers return an explicit result value.
-/

namespace WealthPlus

/-! ### Authentication / lockout (lib/auth.ts) -/

/-- A user row, restricted to the fields the login flow touches.
`password` stands for the stored bcrypt hash; the bcrypt `compare`
call is modelled as string equality. -/
structure UserState where
  password : String
  failedLoginAttempts : Nat
  lockedUntil : Option Nat
deriving DecidableEq, Repr

def MAX_LOGIN_ATTEMPTS : Nat := 5

def LOCKOUT_DURATION_MINUTES : Nat := 15

/-- `LOCKOUT_DURATION_MINUTES * 60 * 1000`, the lockout span in ms. -/
def lockoutDurationMs : Nat := LOCKOUT_DURATION_MINUTES * 60 * 1000

/-- `checkAccountLockout`: the account is locked when `lockedUntil`
is set and lies strictly in the future (`user.lockedUntil > new Date()`). -/
def lockedNow (u : UserState) (now : Nat) : Bool :=
  match u.lockedUntil with
  | some t => now < t
  | none => false

/-- `Math.ceil((lockedUntil - Date.now()) / (1000 * 60))` for the
minutes-remaining figure in the lockout message. -/
def minutesRemaining (t now : Nat) : Nat :=
  (t - now + (1000 * 60) - 1) / (1000 * 60)

/-- `handleFailedLogin`: increment the counter; on reaching
`MAX_LOGIN_ATTEMPTS` set `lockedUntil` to now + lockout duration,
otherwise explicitly write `null`. -/
def handleFailedLogin (u : UserState) (now : Nat) : UserState :=
  let newAttempts := u.failedLoginAttempts + 1
  let shouldLock := MAX_LOGIN_ATTEMPTS ≤ newAttempts
  { u with failedLoginAttempts := newAttempts,
           lockedUntil := if shouldLock then some (now + lockoutDurationMs) else none }

/-- `handleSuccessfulLogin`: reset the counter and clear the lockout. -/
def handleSuccessfulLogin (u : UserState) : UserState :=
  { u with failedLoginAttempts := 0, lockedUntil := none }

/-- Outcome of one `authorize` call: success flag, the audit-log
reason code, and the error message thrown to the caller (if any). -/
structure AuthResult where
  ok : Bool
  reason : String
  message : Option String
deriving DecidableEq, Repr

/-- The `authorize` callback of the credentials provider, for one
account (`none` = no user row for the submitted email).  Returns the
outcome together with the user row as left in the database.
Mirrors the source order: lockout check, user lookup, password
compare with failure handling (including the re-check that this very
attempt caused the lockout), then the success path. -/
def authorize (user : Option UserState) (pw : String) (now : Nat) :
    AuthResult × Option UserState :=
  match user with
  | none =>
      ({ ok := false, reason := "invalid_email",
         message := some "Invalid email or password" }, none)
  | some u =>
      if lockedNow u now then
        ({ ok := false, reason := "account_locked",
           message := some ("Account is temporarily locked. Please try again in " ++
             toString (minutesRemaining (u.lockedUntil.getD 0) now) ++ " minutes.") },
         some u)
      else if pw ≠ u.password then
        let u' := handleFailedLogin u now
        if lockedNow u' now then
          ({ ok := false, reason := "invalid_password",
             message := some ("Too many failed attempts. Account locked for " ++
               toString LOCKOUT_DURATION_MINUTES ++ " minutes.") }, some u')
        else
          ({ ok := false, reason := "invalid_password",
             message := some "Invalid email or password" }, some u')
      else
        ({ ok := true, reason := "success", message := none },
         some (handleSuccessfulLogin u))

/-- States of a user row reachable through the login flow: the row is
created with a zero counter and no lockout, and is only ever mutated
by `handleFailedLogin` or `handleSuccessfulLogin`. -/
inductive LoginReachable : UserState → Prop where
  | init (p : String) :
      LoginReachable { password := p, failedLoginAttempts := 0, lockedUntil := none }
  | fail {u : UserState} (now : Nat) :
      LoginReachable u → LoginReachable (handleFailedLogin u now)
  | succeed {u : UserState} :
      LoginReachable u → LoginReachable (handleSuccessfulLogin u)

/-! ### Ledger rows, categories and handler results -/

/-- A ledger row (income, expense or savings entry).  `categoryId` is
the foreign key to the row's category: `sourceId`, `verticalId` or
`instrumentId` depending on the ledger.  Amounts are JS numbers,
modelled as rationals. -/
structure LedgerRow where
  id : String
  userId : String
  categoryId : String
  month : String
  amount : ℚ
  notes : Option String
deriving DecidableEq, Repr

/-- An expense vertical (user-owned category); income sources are
shaped identically. -/
structure Vertical where
  id : String
  userId : String
  name : String
deriving DecidableEq, Repr

/-- A savings instrument: globally shared, no owning user column. -/
structure Instrument where
  id : String
  name : String
  category : String
  isDefault : Bool
deriving DecidableEq, Repr

/-- Result of a route handler: either a payload or an HTTP status
with the error message of the JSON body. -/
inductive ApiResult (α : Type) where
  | ok : α → ApiResult α
  | err : Nat → String → ApiResult α
deriving DecidableEq, Repr

/-! ### Ownership-scoped entry handlers (app/api/expenses/[id]/route.ts) -/

/-- `prisma.expenseEntry.findFirst({ where: { id, userId } })`: the
single query scoped by both the entry id and the owning user id. -/
def findEntryScoped (db : List LedgerRow) (id uid : String) : Option LedgerRow :=
  db.find? (fun e => e.id == id && e.userId == uid)

/-- GET handler body (after session resolution). -/
def getExpenseEntry (db : List LedgerRow) (uid id : String) : ApiResult LedgerRow :=
  match findEntryScoped db id uid with
  | none => .err 404 "Entry not found"
  | some e => .ok e

/-- The validated optional-field payload of `updateExpenseEntrySchema`. -/
structure ExpenseUpdatePayload where
  month : Option String
  verticalId : Option String
  amount : Option ℚ
  notes : Option String
deriving Repr

/-- The partial-update object `{ ...(month && {month}), ... }` applied
by `prisma.expenseEntry.update`. -/
def applyEntryUpdate (e : LedgerRow) (p : ExpenseUpdatePayload) : LedgerRow :=
  { e with month := p.month.getD e.month,
           categoryId := p.verticalId.getD e.categoryId,
           amount := p.amount.getD e.amount,
           notes := match p.notes with | some n => some n | none => e.notes }

/-- PUT handler body: re-fetch scoped by id and user, optionally check
the new vertical belongs to the caller, then update the row by id. -/
def updateExpenseEntry (db : List LedgerRow) (verticals : List Vertical)
    (uid id : String) (p : ExpenseUpdatePayload) :
    ApiResult LedgerRow × List LedgerRow :=
  match findEntryScoped db id uid with
  | none => (.err 404 "Entry not found", db)
  | some e0 =>
      let verticalOk : Bool :=
        match p.verticalId with
        | some vid => (verticals.find? (fun v => v.id == vid && v.userId == uid)).isSome
        | none => true
      if verticalOk then
        (ApiResult.ok (applyEntryUpdate e0 p),
         db.map (fun e => if e.id == id then applyEntryUpdate e p else e))
      else
        (ApiResult.err 400 "Invalid expense vertical", db)

/-- DELETE handler body: re-fetch scoped by id and user, then
`prisma.expenseEntry.delete({ where: { id } })`. -/
def deleteExpenseEntry (db : List LedgerRow) (uid id : String) :
    ApiResult String × List LedgerRow :=
  match findEntryScoped db id uid with
  | none => (.err 404 "Entry not found", db)
  | some _ => (.ok "Entry deleted successfully", db.filter (fun e => !(e.id == id)))

/-! ### Category delete guards (app/api/masters/.../[id]/route.ts) -/

/-- The prisma relation count `_count.select.<entries>`: how many
ledger rows (of any user) reference the category. -/
def countEntriesReferencing (entries : List LedgerRow) (cid : String) : Nat :=
  (entries.filter (fun e => e.categoryId == cid)).length

/-- DELETE of an expense vertical: fetch scoped by id and owning user
together with the reference count; a nonzero count is rejected with a
count-bearing 400, otherwise the row is deleted. -/
def deleteExpenseVertical (verticals : List Vertical) (entries : List LedgerRow)
    (uid vid : String) : ApiResult String × List Vertical :=
  match verticals.find? (fun v => v.id == vid && v.userId == uid) with
  | none => (.err 404 "Vertical not found", verticals)
  | some _ =>
      let n := countEntriesReferencing entries vid
      if 0 < n then
        (.err 400 ("Cannot delete: " ++ toString n ++
          " entries are using this vertical. Reassign them first."), verticals)
      else
        (.ok "Vertical deleted successfully", verticals.filter (fun v => !(v.id == vid)))

/-- DELETE of a savings instrument: `findUnique({ where: { id } })` —
scoped by id only, never by the calling user — with the relation
count over all users' savings entries.  `uid` is the session user; it
is not consulted beyond the 401 gate. -/
def deleteSavingsInstrument (instruments : List Instrument) (entries : List LedgerRow)
    (uid iid : String) : ApiResult String × List Instrument :=
  match instruments.find? (fun i => i.id == iid) with
  | none => (.err 404 "Instrument not found", instruments)
  | some _ =>
      let n := countEntriesReferencing entries iid
      if 0 < n then
        (.err 400 ("Cannot delete: " ++ toString n ++
          " entries are using this instrument. Reassign them first."), instruments)
      else
        (.ok "Instrument deleted successfully",
         instruments.filter (fun i => !(i.id == iid)))

/-- PUT of a savings instrument: `findUnique({ where: { id } })` (no
user scoping), duplicate check on (name, category) excluding the row
itself, then update.  The payload is the already-validated
`createSavingsInstrumentSchema` data.  `uid` is the session user; it
is not consulted beyond the 401 gate. -/
def putSavingsInstrument (instruments : List Instrument) (uid iid name category : String) :
    ApiResult Instrument × List Instrument :=
  match instruments.find? (fun i => i.id == iid) with
  | none => (.err 404 "Instrument not found", instruments)
  | some i0 =>
      match instruments.find? (fun i => i.name == name && i.category == category
          && !(i.id == iid)) with
      | some _ =>
          (.err 400 "Savings instrument with this name already exists in this category",
           instruments)
      | none =>
          (.ok { i0 with name := name, category := category },
           instruments.map (fun i =>
             if i.id == iid then { i with name := name, category := category } else i))

/-! ### Registration OTP (app/api/auth/otp/send, app/api/auth/otp/verify) -/

/-- An `EmailVerification` row for one email.  Timestamps in ms. -/
structure Verification where
  otp : String
  expiresAt : Nat
  attempts : Nat
  verified : Bool
deriving DecidableEq, Repr

def OTP_EXPIRY_MINUTES : Nat := 10

def MAX_ATTEMPTS : Nat := 5

/-- The row created by the send route: fresh code, expiry
`OTP_EXPIRY_MINUTES` after issuance, zero attempts. -/
def makeVerification (code : String) (issuedAt : Nat) : Verification :=
  { otp := code, expiresAt := issuedAt + OTP_EXPIRY_MINUTES * 60 * 1000,
    attempts := 0, verified := false }

/-- The verify route body, acting on the most recent unverified
verification row for the email (`none` = no pending row).  Returns
the response plus the row as left in the database (`none` = deleted). -/
def verifyOTP (v : Option Verification) (code : String) (now : Nat) :
    ApiResult String × Option Verification :=
  match v with
  | none =>
      (.err 400 "No pending verification found. Please request a new code.", none)
  | some ver =>
      if ver.expiresAt < now then
        (.err 400 "Verification code has expired. Please request a new one.", none)
      else if MAX_ATTEMPTS ≤ ver.attempts then
        (.err 400 "Too many failed attempts. Please request a new code.", none)
      else if ver.otp ≠ code then
        (.err 400 ("Invalid verification code. " ++
           toString (MAX_ATTEMPTS - ver.attempts - 1) ++ " attempts remaining."),
         some { ver with attempts := ver.attempts + 1 })
      else
        (.ok "Email verified successfully", some { ver with verified := true })

/-! ### CSV field escaping (app/api/export/route.ts, escapeCsvField) -/

/-- `str.replace(/"/g, '""')` at character level: every double quote
is doubled, all other characters pass through. -/
def replaceQuoteChars : List Char → List Char
  | [] => []
  | c :: cs =>
      if c = '"' then '"' :: '"' :: replaceQuoteChars cs
      else c :: replaceQuoteChars cs

/-- `escapeCsvField`: `null`/`undefined` become the empty string; a
string containing a comma, quote or newline is wrapped in quotes with
inner quotes doubled; anything else is returned unchanged. -/
def escapeCsvField (field : Option String) : String :=
  match field with
  | none => ""
  | some s =>
      if s.data.contains ',' || s.data.contains '"' || s.data.contains '\n' then
        "\"" ++ String.mk (replaceQuoteChars s.data) ++ "\""
      else s

/-- Spec-side statement of RFC-4180 quote doubling, written
independently of `replaceQuoteChars`: each character maps to itself,
except a double quote which maps to two. -/
def quoteDoubled (s : String) : String :=
  String.mk (s.data.flatMap (fun c => if c = '"' then ['"', '"'] else [c]))

/-! ### Aggregation summary (app/api/export/route.ts, summary branch;
lib/utils.ts, calculatePercentage) -/

/-- `findMany({ where: { userId, month } })`. -/
def entriesFor (db : List LedgerRow) (uid month : String) : List LedgerRow :=
  db.filter (fun e => e.userId == uid && e.month == month)

/-- `entries.reduce((sum, e) => sum + e.amount, 0)`. -/
def sumAmounts (l : List LedgerRow) : ℚ :=
  l.foldl (fun s e => s + e.amount) 0

/-- `Math.round` on an exact rational: JS rounds half toward +∞. -/
def jsRound (q : ℚ) : ℤ := ⌊q + 1 / 2⌋

/-- `Math.round(q * 100) / 100`: round to two decimals. -/
def roundTwo (q : ℚ) : ℚ := (jsRound (q * 100) : ℚ) / 100

/-- `calculatePercentage` from lib/utils.ts:
`total === 0 ? 0 : Math.round((value / total) * 100 * 100) / 100`. -/
def calculatePercentage (value total : ℚ) : ℚ :=
  if total = 0 then 0 else roundTwo (value / total * 100)

/-- The metric block of the summary export. -/
structure SummaryMetrics where
  totalIncome : ℚ
  totalExpenses : ℚ
  totalSavings : ℚ
  netCashFlow : ℚ
  savingsRate : ℚ
  expenseRatio : ℚ
deriving DecidableEq, Repr

/-- The summary branch of the export route: totals are reduce-sums of
the user's rows for the month, `netCashFlow = income − expenses −
savings`, and the two ratios are `(value / totalIncome) * 100` when
`totalIncome > 0` (else 0), written to the CSV after
`Math.round(x * 100) / 100`. -/
def summaryMetrics (incomeDb expenseDb savingsDb : List LedgerRow)
    (uid month : String) : SummaryMetrics :=
  let ti := sumAmounts (entriesFor incomeDb uid month)
  let te := sumAmounts (entriesFor expenseDb uid month)
  let ts := sumAmounts (entriesFor savingsDb uid month)
  let savingsRate : ℚ := if 0 < ti then ts / ti * 100 else 0
  let expenseRatio : ℚ := if 0 < ti then te / ti * 100 else 0
  { totalIncome := ti, totalExpenses := te, totalSavings := ts,
    netCashFlow := ti - te - ts,
    savingsRate := roundTwo savingsRate,
    expenseRatio := roundTwo expenseRatio }

/-! ### Month-range derivation (lib/utils.ts, getMonthRange and
getMonthsList) -/

/-- A calendar month: year plus 1-based month number, the value a
`YYYY-MM` token denotes. -/
structure MonthDate where
  year : Int
  month : Int
deriving DecidableEq, Repr

/-- The absolute month index `year * 12 + (month − 1)`; `month − 1`
is the JS `getMonth()` 0-based value. -/
def ymIndex (d : MonthDate) : Int := d.year * 12 + (d.month - 1)

/-- The month a (possibly out-of-range) absolute index denotes.  The
JS `new Date(year, monthIdx, 1)` constructor normalizes exactly this
way: year `idx ediv 12`, 0-based month `idx emod 12`. -/
def ymOfIndex (i : Int) : MonthDate :=
  { year := i / 12, month := i % 12 + 1 }

/-- `getMonthRange(months)`: `to` is the current month; `from` is
`new Date(now.getFullYear(), now.getMonth() - months + 1, 1)`,
i.e. the normalized month at index `ymIndex now - months + 1`. -/
def getMonthRange (now : MonthDate) (months : Nat) : MonthDate × MonthDate :=
  (ymOfIndex (now.year * 12 + (now.month - 1) - months + 1), now)

/-- The loop body of `getMonthsList`: `currentMonth++`, rolling over
into January of the next year past December. -/
def nextMonth (d : MonthDate) : MonthDate :=
  if 12 < d.month + 1 then { year := d.year + 1, month := 1 }
  else { year := d.year, month := d.month + 1 }

/-- The `getMonthsList` while loop, unrolled a given number of
iterations. -/
def monthsLoop : Nat → MonthDate → List MonthDate
  | 0, _ => []
  | Nat.succ n, d => d :: monthsLoop n (nextMonth d)

/-- `getMonthsList(from, to)`: push months starting at `from` while
the guard `currentYear < toYear || (currentYear == toYear &&
currentMonth <= toMonth)` holds.  For in-range months (1..12) the
guard is exactly `ymIndex current ≤ ymIndex to`, so the loop runs
`ymIndex to + 1 - ymIndex from` times (0 when the range is empty). -/
def getMonthsList (f t : MonthDate) : List MonthDate :=
  monthsLoop (ymIndex t + 1 - ymIndex f).toNat f

/-- `String(m).padStart(2, '0')` for the month component. -/
def padStart2 (s : String) : String :=
  if 2 ≤ s.length then s else if s.length = 1 then "0" ++ s else "00"

/-- The template `` `${year}-${String(month).padStart(2, '0')}` ``
producing a `YYYY-MM` token. -/
def formatYM (d : MonthDate) : String :=
  toString d.year ++ "-" ++ padStart2 (toString d.month)

/-! ## Theorems -/

/-- Helper: an account whose `lockedUntil` is `null` is never locked. -/
theorem lockedNow_none (p : String) (n t : Nat) :
    lockedNow { password := p, failedLoginAttempts := n, lockedUntil := none } t
      = false := rfl

/-- Claim C9: in every reachable user state, `lockedUntil` is set only
if `failedLoginAttempts` has reached `MAX_LOGIN_ATTEMPTS`: a failure
below the threshold writes `lockedUntil = null`, a threshold-reaching
failure sets counter and timestamp together, and a success resets
both. -/
theorem lockedUntil_only_if_max_attempts (u : UserState) (h : LoginReachable u) :
    u.lockedUntil ≠ none → MAX_LOGIN_ATTEMPTS ≤ u.failedLoginAttempts := by
  induction h with
  | init p => simp
  | fail now hr ih =>
      simp only [handleFailedLogin]
      split
      · next h5 => intro _; simpa using h5
      · intro hc; exact absurd rfl hc
  | succeed hr ih => simp [handleSuccessfulLogin]

/-- Witness for C9: after five failed logins from a fresh account the
lockout timestamp is set, and the invariant yields a counter at the
maximum. -/
theorem lockedUntil_only_if_max_attempts_witness :
    MAX_LOGIN_ATTEMPTS ≤
      (handleFailedLogin (handleFailedLogin (handleFailedLogin (handleFailedLogin
        (handleFailedLogin
          { password := "p", failedLoginAttempts := 0, lockedUntil := none }
          0) 0) 0) 0) 0).failedLoginAttempts :=
  lockedUntil_only_if_max_attempts _
    (LoginReachable.fail 0 (LoginReachable.fail 0 (LoginReachable.fail 0
      (LoginReachable.fail 0 (LoginReachable.fail 0 (LoginReachable.init "p"))))))
    (by decide)

/-- Claim C1: from a fresh account, five consecutive failed logins
lock it (counter 5, lockout stamp set); a sixth attempt before the
stamp elapses, even with the correct password, is rejected with audit
reason `account_locked` and leaves the state unchanged; a successful
login once the stamp has elapsed resets the counter to 0 and clears
the lockout. -/
theorem login_lockout_machine (p w : String) (hw : w ≠ p)
    (t1 t2 t3 t4 t5 t6 t7 : Nat)
    (h6 : t6 < t5 + lockoutDurationMs)
    (h7 : t5 + lockoutDurationMs ≤ t7) :
    let u0 : UserState := { password := p, failedLoginAttempts := 0, lockedUntil := none }
    let s1 := (authorize (some u0) w t1).2
    let s2 := (authorize s1 w t2).2
    let s3 := (authorize s2 w t3).2
    let s4 := (authorize s3 w t4).2
    let s5 := (authorize s4 w t5).2
    s5 = some { password := p, failedLoginAttempts := 5,
                lockedUntil := some (t5 + lockoutDurationMs) } ∧
    (authorize s5 p t6).1.ok = false ∧
    (authorize s5 p t6).1.reason = "account_locked" ∧
    (authorize s5 p t6).2 = s5 ∧
    (authorize s5 p t7).1.ok = true ∧
    (authorize s5 p t7).1.reason = "success" ∧
    (authorize s5 p t7).2 = some { password := p, failedLoginAttempts := 0,
                                   lockedUntil := none } := by
  have h7' : ¬ t7 < t5 + lockoutDurationMs := Nat.not_lt.mpr h7
  have hD : 0 < lockoutDurationMs := by decide
  simp [authorize, lockedNow, handleFailedLogin, handleSuccessfulLogin,
    MAX_LOGIN_ATTEMPTS, hw, h6, h7', hD]

/-- Witness for C1 at a concrete account and timeline. -/
theorem login_lockout_machine_witness :
    let u0 : UserState := { password := "secret", failedLoginAttempts := 0,
                            lockedUntil := none }
    let s1 := (authorize (some u0) "x" 0).2
    let s2 := (authorize s1 "x" 0).2
    let s3 := (authorize s2 "x" 0).2
    let s4 := (authorize s3 "x" 0).2
    let s5 := (authorize s4 "x" 0).2
    s5 = some { password := "secret", failedLoginAttempts := 5,
                lockedUntil := some (0 + lockoutDurationMs) } ∧
    (authorize s5 "secret" 1).1.ok = false ∧
    (authorize s5 "secret" 1).1.reason = "account_locked" ∧
    (authorize s5 "secret" 1).2 = s5 ∧
    (authorize s5 "secret" lockoutDurationMs).1.ok = true ∧
    (authorize s5 "secret" lockoutDurationMs).1.reason = "success" ∧
    (authorize s5 "secret" lockoutDurationMs).2 =
      some { password := "secret", failedLoginAttempts := 0, lockedUntil := none } :=
  login_lockout_machine "secret" "x" (by decide) 0 0 0 0 0 1 lockoutDurationMs
    (by decide) (by decide)

/-- Claim C7 counterexample: a password mismatch that crosses the
lockout threshold (fifth consecutive failure) returns the distinct
"Too many failed attempts" message, not the generic message returned
for an unknown email — so the two cases are not always identical. -/
theorem auth_message_counterexample :
    (authorize (some { password := "p", failedLoginAttempts := 4, lockedUntil := none })
        "q" 0).1.reason = "invalid_password" ∧
    (authorize (none : Option UserState) "q" 0).1.reason = "invalid_email" ∧
    (authorize (some { password := "p", failedLoginAttempts := 4, lockedUntil := none })
        "q" 0).1.message ≠
      (authorize (none : Option UserState) "q" 0).1.message := by
  decide

/-- Claim C7 (amended): for an attempt on an unlocked account whose
failure does not cross the lockout threshold, the password-mismatch
error message equals the unknown-email error message (both the
generic "Invalid email or password"), and only the audit reason codes
`invalid_password` / `invalid_email` distinguish the cases. -/
theorem auth_generic_message (u : UserState) (pw : String) (now : Nat)
    (hpw : pw ≠ u.password)
    (hnl : lockedNow u now = false)
    (hth : u.failedLoginAttempts + 1 < MAX_LOGIN_ATTEMPTS) :
    (authorize (some u) pw now).1.message = (authorize none pw now).1.message ∧
    (authorize (some u) pw now).1.message = some "Invalid email or password" ∧
    (authorize (some u) pw now).1.reason = "invalid_password" ∧
    (authorize none pw now).1.reason = "invalid_email" := by
  have hle : ¬ MAX_LOGIN_ATTEMPTS ≤ u.failedLoginAttempts + 1 := Nat.not_le.mpr hth
  simp [authorize, handleFailedLogin, hnl, hpw, hle, lockedNow_none]

/-- Witness for the amended C7 at a concrete account. -/
theorem auth_generic_message_witness :
    (authorize (some { password := "p", failedLoginAttempts := 0, lockedUntil := none })
        "q" 0).1.message = (authorize none "q" 0).1.message ∧
    (authorize (some { password := "p", failedLoginAttempts := 0, lockedUntil := none })
        "q" 0).1.message = some "Invalid email or password" ∧
    (authorize (some { password := "p", failedLoginAttempts := 0, lockedUntil := none })
        "q" 0).1.reason = "invalid_password" ∧
    (authorize (none : Option UserState) "q" 0).1.reason = "invalid_email" :=
  auth_generic_message _ _ _ (by decide) (by decide) (by decide)

/-- Claim C3: when no row with the requested id is owned by the
caller — in particular when the row exists but belongs to another
user — GET, PUT and DELETE all return the identical 404 "Entry not
found" error and leave the table untouched; and a GET can only ever
return a row that is owned by the caller, because the lookup is
scoped by both id and user id in the single `findFirst` query. -/
theorem cross_user_not_found (db : List LedgerRow) (verticals : List Vertical)
    (uid id : String) (p : ExpenseUpdatePayload)
    (h : ∀ e ∈ db, e.id = id → e.userId ≠ uid) :
    getExpenseEntry db uid id = .err 404 "Entry not found" ∧
    updateExpenseEntry db verticals uid id p = (.err 404 "Entry not found", db) ∧
    deleteExpenseEntry db uid id = (.err 404 "Entry not found", db) ∧
    (∀ (db2 : List LedgerRow) (e : LedgerRow),
        getExpenseEntry db2 uid id = .ok e → e ∈ db2 ∧ e.id = id ∧ e.userId = uid) := by
  have hf : findEntryScoped db id uid = none := by
    unfold findEntryScoped
    apply List.find?_eq_none.mpr
    intro e he
    simp only [Bool.and_eq_true, beq_iff_eq, not_and]
    exact fun h1 h2 => h e he h1 h2
  refine ⟨?_, ?_, ?_, ?_⟩
  · simp [getExpenseEntry, hf]
  · simp [updateExpenseEntry, hf]
  · simp [deleteExpenseEntry, hf]
  · intro db2 e he
    unfold getExpenseEntry at he
    cases hfind : findEntryScoped db2 id uid with
    | none => rw [hfind] at he; cases he
    | some e' =>
        rw [hfind] at he
        cases he
        unfold findEntryScoped at hfind
        have hmem := List.mem_of_find?_eq_some hfind
        have hp := List.find?_some hfind
        simp only [Bool.and_eq_true, beq_iff_eq] at hp
        exact ⟨hmem, hp.1, hp.2⟩

/-- Witness for C3: the entry "e1" exists but is owned by "alice";
"bob" gets the same 404 on all three verbs and the table is
unchanged. -/
theorem cross_user_not_found_witness :
    getExpenseEntry
      [{ id := "e1", userId := "alice", categoryId := "v1", month := "2024-01",
         amount := 5, notes := none }] "bob" "e1" = .err 404 "Entry not found" ∧
    updateExpenseEntry
      [{ id := "e1", userId := "alice", categoryId := "v1", month := "2024-01",
         amount := 5, notes := none }] [] "bob" "e1"
      { month := none, verticalId := none, amount := none, notes := none } =
      (.err 404 "Entry not found",
       [{ id := "e1", userId := "alice", categoryId := "v1", month := "2024-01",
          amount := 5, notes := none }]) ∧
    deleteExpenseEntry
      [{ id := "e1", userId := "alice", categoryId := "v1", month := "2024-01",
         amount := 5, notes := none }] "bob" "e1" =
      (.err 404 "Entry not found",
       [{ id := "e1", userId := "alice", categoryId := "v1", month := "2024-01",
          amount := 5, notes := none }]) := by
  have h := cross_user_not_found
    [{ id := "e1", userId := "alice", categoryId := "v1", month := "2024-01",
       amount := 5, notes := none }] [] "bob" "e1"
    { month := none, verticalId := none, amount := none, notes := none }
    (by decide)
  exact ⟨h.1, h.2.1, h.2.2.1⟩

/-- Claim C4: deleting a category (expense vertical or savings
instrument) that exists — owned by the caller in the vertical case —
fails with a 400 whose message carries the reference count whenever
at least one entry references it, leaving the category table
unchanged; with zero references the delete succeeds and the row is
removed. -/
theorem category_delete_reference_guard
    (verticals : List Vertical) (instruments : List Instrument)
    (ventries sentries : List LedgerRow) (uid vid iid : String)
    (hv : ∃ v ∈ verticals, v.id = vid ∧ v.userId = uid)
    (hi : ∃ i ∈ instruments, i.id = iid) :
    (0 < countEntriesReferencing ventries vid →
      deleteExpenseVertical verticals ventries uid vid =
        (.err 400 ("Cannot delete: " ++ toString (countEntriesReferencing ventries vid) ++
          " entries are using this vertical. Reassign them first."), verticals)) ∧
    (countEntriesReferencing ventries vid = 0 →
      deleteExpenseVertical verticals ventries uid vid =
        (.ok "Vertical deleted successfully",
         verticals.filter (fun v => !(v.id == vid))) ∧
      ∀ v ∈ (deleteExpenseVertical verticals ventries uid vid).2, v.id ≠ vid) ∧
    (0 < countEntriesReferencing sentries iid →
      deleteSavingsInstrument instruments sentries uid iid =
        (.err 400 ("Cannot delete: " ++ toString (countEntriesReferencing sentries iid) ++
          " entries are using this instrument. Reassign them first."), instruments)) ∧
    (countEntriesReferencing sentries iid = 0 →
      deleteSavingsInstrument instruments sentries uid iid =
        (.ok "Instrument deleted successfully",
         instruments.filter (fun i => !(i.id == iid))) ∧
      ∀ i ∈ (deleteSavingsInstrument instruments sentries uid iid).2, i.id ≠ iid) := by
  obtain ⟨v, hvm, hv1, hv2⟩ := hv
  obtain ⟨i, him, hi1⟩ := hi
  have hw' : (verticals.find? (fun v => v.id == vid && v.userId == uid)).isSome :=
    List.find?_isSome.mpr ⟨v, hvm, by simp [hv1, hv2]⟩
  obtain ⟨w, hw⟩ := Option.isSome_iff_exists.mp hw'
  have hx' : (instruments.find? (fun i => i.id == iid)).isSome :=
    List.find?_isSome.mpr ⟨i, him, by simp [hi1]⟩
  obtain ⟨x, hx⟩ := Option.isSome_iff_exists.mp hx'
  refine ⟨?_, ?_, ?_, ?_⟩
  · intro hn
    simp [deleteExpenseVertical, hw, hn]
  · intro hn
    have hres : deleteExpenseVertical verticals ventries uid vid =
        (.ok "Vertical deleted successfully",
         verticals.filter (fun v => !(v.id == vid))) := by
      simp [deleteExpenseVertical, hw, hn]
    refine ⟨hres, ?_⟩
    rw [hres]
    intro v' hv'
    rcases List.mem_filter.mp hv' with ⟨_, hpred⟩
    simpa using hpred
  · intro hn
    simp [deleteSavingsInstrument, hx, hn]
  · intro hn
    have hres : deleteSavingsInstrument instruments sentries uid iid =
        (.ok "Instrument deleted successfully",
         instruments.filter (fun i => !(i.id == iid))) := by
      simp [deleteSavingsInstrument, hx, hn]
    refine ⟨hres, ?_⟩
    rw [hres]
    intro i' hi'
    rcases List.mem_filter.mp hi' with ⟨_, hpred⟩
    simpa using hpred

/-- Witness for C4: one referencing entry blocks the vertical delete
with the count in the message; an unreferenced instrument delete
succeeds and removes the row. -/
theorem category_delete_reference_guard_witness :
    deleteExpenseVertical [{ id := "v1", userId := "u1", name := "Food" }]
      [{ id := "e1", userId := "u1", categoryId := "v1", month := "2024-01",
         amount := 5, notes := none }] "u1" "v1" =
      (.err 400 ("Cannot delete: " ++
        toString (countEntriesReferencing
          [{ id := "e1", userId := "u1", categoryId := "v1", month := "2024-01",
             amount := 5, notes := none }] "v1") ++
        " entries are using this vertical. Reassign them first."),
       [{ id := "v1", userId := "u1", name := "Food" }]) ∧
    deleteSavingsInstrument
      [{ id := "i1", name := "FD", category := "FD_RD", isDefault := true }] []
      "u1" "i1" =
      (.ok "Instrument deleted successfully",
       List.filter (fun i => !(i.id == "i1"))
         [{ id := "i1", name := "FD", category := "FD_RD", isDefault := true }]) := by
  have h := category_delete_reference_guard
    [{ id := "v1", userId := "u1", name := "Food" }]
    [{ id := "i1", name := "FD", category := "FD_RD", isDefault := true }]
    [{ id := "e1", userId := "u1", categoryId := "v1", month := "2024-01",
       amount := 5, notes := none }] [] "u1" "v1" "i1"
    (by decide) (by decide)
  exact ⟨h.1 (by decide), (h.2.2.2 (by decide)).1⟩

/-- Claim C10: the savings-instrument PUT and DELETE consult only the
session's existence, never the caller's identity: their result is
the same for any two authenticated users; an existing instrument is
renamed whenever the new (name, category) pair duplicates no other
instrument; a delete succeeds whenever no savings entry of any user
references the instrument, and the reference count is invariant
under arbitrary reassignment of the entries' owners. -/
theorem savings_instrument_shared_mutation
    (instruments : List Instrument) (entries : List LedgerRow)
    (uidA uidB iid name category : String)
    (hex : ∃ i ∈ instruments, i.id = iid)
    (hdup : ∀ i ∈ instruments, ¬(i.name = name ∧ i.category = category ∧ i.id ≠ iid))
    (href : countEntriesReferencing entries iid = 0) :
    putSavingsInstrument instruments uidA iid name category =
      putSavingsInstrument instruments uidB iid name category ∧
    deleteSavingsInstrument instruments entries uidA iid =
      deleteSavingsInstrument instruments entries uidB iid ∧
    (∃ i0 ∈ instruments,
      putSavingsInstrument instruments uidA iid name category =
        (.ok { i0 with name := name, category := category },
         instruments.map (fun i =>
           if i.id == iid then { i with name := name, category := category } else i))) ∧
    deleteSavingsInstrument instruments entries uidA iid =
      (.ok "Instrument deleted successfully",
       instruments.filter (fun i => !(i.id == iid))) ∧
    (∀ reassign : LedgerRow → String,
      countEntriesReferencing (entries.map (fun e => { e with userId := reassign e })) iid
        = countEntriesReferencing entries iid) := by
  obtain ⟨i, him, hi1⟩ := hex
  have hx' : (instruments.find? (fun i => i.id == iid)).isSome :=
    List.find?_isSome.mpr ⟨i, him, by simp [hi1]⟩
  obtain ⟨x, hx⟩ := Option.isSome_iff_exists.mp hx'
  have hnodup : instruments.find? (fun i => i.name == name && i.category == category
      && !(i.id == iid)) = none := by
    apply List.find?_eq_none.mpr
    intro j hj
    have hd := hdup j hj
    simp only [Bool.and_eq_true, beq_iff_eq, Bool.not_eq_true', beq_eq_false_iff_ne,
      ne_eq] at *
    tauto
  refine ⟨rfl, rfl, ?_, ?_, ?_⟩
  · exact ⟨x, List.mem_of_find?_eq_some hx, by simp [putSavingsInstrument, hx, hnodup]⟩
  · simp [deleteSavingsInstrument, hx, href]
  · intro reassign
    simp only [countEntriesReferencing, List.filter_map, List.length_map]
    exact congrArg List.length (List.filter_congr (fun e _ => rfl))

/-- Witness for C10 on a concrete shared instrument. -/
theorem savings_instrument_shared_mutation_witness :
    putSavingsInstrument [{ id := "i1", name := "Old", category := "MF", isDefault := false }] "u1" "i1" "New" "MF" =
      putSavingsInstrument [{ id := "i1", name := "Old", category := "MF", isDefault := false }] "u2" "i1" "New" "MF" ∧
    deleteSavingsInstrument [{ id := "i1", name := "Old", category := "MF", isDefault := false }] [] "u1" "i1" =
      deleteSavingsInstrument [{ id := "i1", name := "Old", category := "MF", isDefault := false }] [] "u2" "i1" ∧
    deleteSavingsInstrument [{ id := "i1", name := "Old", category := "MF", isDefault := false }] [] "u1" "i1" =
      (.ok "Instrument deleted successfully",
       List.filter (fun i => !(i.id == "i1"))
         [{ id := "i1", name := "Old", category := "MF", isDefault := false }]) := by
  have h := savings_instrument_shared_mutation
    [{ id := "i1", name := "Old", category := "MF", isDefault := false }] []
    "u1" "u2" "i1" "New" "MF"
    (by decide) (by decide) (by decide)
  exact ⟨h.1, h.2.1, h.2.2.2.1⟩

/-- Helper: character-level quote doubling agrees with the flat-map
formulation used in the spec-side `quoteDoubled`. -/
theorem replaceQuoteChars_eq_flatMap (l : List Char) :
    replaceQuoteChars l = l.flatMap (fun c => if c = '"' then ['"', '"'] else [c]) := by
  induction l with
  | nil => simp [replaceQuoteChars]
  | cons c cs ih =>
      by_cases hc : c = '"' <;> simp [replaceQuoteChars, hc, ih]

/-- Claim C5: a wrong code on a live OTP (not expired, attempts below
the cap) is rejected and decrements the remaining attempts by one;
after five wrong attempts from a fresh code, any further attempt —
even with the correct code — fails and deletes the verification row;
an attempt after the 10-minute expiry fails and deletes the row; and
with the row gone every attempt fails, requiring a fresh send. -/
theorem otp_attempt_machine (ver : Verification) (wrong : String) (now : Nat)
    (hw : ver.otp ≠ wrong)
    (hexp : ¬ ver.expiresAt < now)
    (hfresh : ver.attempts = 0) :
    (∀ v : Verification, ¬ v.expiresAt < now → v.attempts < MAX_ATTEMPTS →
      v.otp ≠ wrong →
      verifyOTP (some v) wrong now =
        (.err 400 ("Invalid verification code. " ++
          toString (MAX_ATTEMPTS - v.attempts - 1) ++ " attempts remaining."),
         some { v with attempts := v.attempts + 1 }) ∧
      MAX_ATTEMPTS - (v.attempts + 1) = (MAX_ATTEMPTS - v.attempts) - 1) ∧
    (verifyOTP ((verifyOTP ((verifyOTP ((verifyOTP ((verifyOTP (some ver)
        wrong now).2) wrong now).2) wrong now).2) wrong now).2) wrong now).2
      = some { ver with attempts := 5 } ∧
    (∀ code : String, verifyOTP (some { ver with attempts := 5 }) code now =
      (.err 400 "Too many failed attempts. Please request a new code.", none)) ∧
    (∀ (c code : String) (issued t : Nat),
      issued + OTP_EXPIRY_MINUTES * 60 * 1000 < t →
      verifyOTP (some (makeVerification c issued)) code t =
        (.err 400 "Verification code has expired. Please request a new one.", none)) ∧
    (∀ (code : String) (t : Nat), verifyOTP none code t =
      (.err 400 "No pending verification found. Please request a new code.", none)) := by
  refine ⟨?_, ?_, ?_, ?_, ?_⟩
  · intro v h1 h2 h3
    have h2' := Nat.not_le.mpr h2
    exact ⟨by simp [verifyOTP, h1, h2', h3], by omega⟩
  · simp [verifyOTP, hexp, hw, hfresh, MAX_ATTEMPTS]
  · intro code
    simp [verifyOTP, hexp, MAX_ATTEMPTS]
  · intro c code issued t ht
    simp [verifyOTP, makeVerification, ht]
  · intro code t
    rfl

/-- Witness for C5: a fresh six-digit code issued at time 0 reaches
attempts = 5 after five wrong tries. -/
theorem otp_attempt_machine_witness :
    (verifyOTP ((verifyOTP ((verifyOTP ((verifyOTP ((verifyOTP
        (some (makeVerification "123456" 0)) "000000" 0).2) "000000" 0).2)
        "000000" 0).2) "000000" 0).2) "000000" 0).2
      = some { makeVerification "123456" 0 with attempts := 5 } :=
  (otp_attempt_machine (makeVerification "123456" 0) "000000" 0
    (by decide) (by decide) (by decide)).2.1

/-- Claim C6: `escapeCsvField` emits null/undefined as the empty
string; a field containing a comma, double quote or newline is
wrapped in double quotes with every internal quote doubled; any
other field is emitted unchanged. -/
theorem escapeCsvField_rfc4180 (s : String) :
    escapeCsvField none = "" ∧
    ((s.data.contains ',' || s.data.contains '"' || s.data.contains '\n') = true →
      escapeCsvField (some s) = "\"" ++ quoteDoubled s ++ "\"") ∧
    ((s.data.contains ',' || s.data.contains '"' || s.data.contains '\n') = false →
      escapeCsvField (some s) = s) := by
  refine ⟨rfl, ?_, ?_⟩
  · intro h
    simp only [escapeCsvField]
    rw [if_pos h, replaceQuoteChars_eq_flatMap]
    rfl
  · intro h
    simp only [escapeCsvField]
    rw [if_neg (by intro hc; simp at hc h; tauto)]

/-- Witness for C6 on a field containing both a quote and a comma. -/
theorem escapeCsvField_rfc4180_witness :
    escapeCsvField (some "a\"b,c") = "\"" ++ quoteDoubled "a\"b,c" ++ "\"" :=
  (escapeCsvField_rfc4180 "a\"b,c").2.1 (by decide)

/-- Helper: a reduce-sum starting from a nonnegative accumulator over
rows with nonnegative amounts is nonnegative. -/
theorem foldl_amount_nonneg (l : List LedgerRow) :
    ∀ init : ℚ, (∀ e ∈ l, 0 ≤ e.amount) → 0 ≤ init →
      0 ≤ l.foldl (fun s e => s + e.amount) init := by
  induction l with
  | nil => intro init _ h0; simpa using h0
  | cons e es ih =>
      intro init h h0
      simp only [List.foldl_cons]
      refine ih _ (fun x hx => h x (List.mem_cons_of_mem _ hx)) ?_
      have := h e (List.mem_cons_self _ _)
      linarith

/-- Helper: the totals of the summary are nonnegative when all stored
amounts are (entry validation enforces positive amounts). -/
theorem sumAmounts_nonneg (l : List LedgerRow) (h : ∀ e ∈ l, 0 ≤ e.amount) :
    0 ≤ sumAmounts l :=
  foldl_amount_nonneg l 0 h le_rfl

/-- Helper: rounding zero to two decimals yields zero. -/
theorem roundTwo_zero : roundTwo 0 = 0 := by
  norm_num [roundTwo, jsRound]

/-- Claim C2: each total of the summary is the sum of the user's
entry amounts for the month, `netCashFlow = totalIncome −
totalExpenses − totalSavings`, and the savings rate and expense
ratio equal `calculatePercentage` of the corresponding total: 0 when
`totalIncome` is 0, and otherwise `(value / totalIncome) * 100`
rounded to two decimals. -/
theorem summary_metrics_correct (incomeDb expenseDb savingsDb : List LedgerRow)
    (uid month : String)
    (hpos : ∀ e ∈ incomeDb, 0 ≤ e.amount) :
    let s := summaryMetrics incomeDb expenseDb savingsDb uid month
    s.totalIncome = sumAmounts (entriesFor incomeDb uid month) ∧
    s.totalExpenses = sumAmounts (entriesFor expenseDb uid month) ∧
    s.totalSavings = sumAmounts (entriesFor savingsDb uid month) ∧
    s.netCashFlow = s.totalIncome - s.totalExpenses - s.totalSavings ∧
    s.savingsRate = calculatePercentage s.totalSavings s.totalIncome ∧
    s.expenseRatio = calculatePercentage s.totalExpenses s.totalIncome ∧
    (s.totalIncome = 0 → s.savingsRate = 0 ∧ s.expenseRatio = 0) ∧
    (s.totalIncome ≠ 0 →
      s.savingsRate = roundTwo (s.totalSavings / s.totalIncome * 100) ∧
      s.expenseRatio = roundTwo (s.totalExpenses / s.totalIncome * 100)) := by
  have hti : 0 ≤ sumAmounts (entriesFor incomeDb uid month) :=
    sumAmounts_nonneg _ (fun e he => hpos e (List.mem_of_mem_filter he))
  by_cases h0 : sumAmounts (entriesFor incomeDb uid month) = 0
  · simp [summaryMetrics, h0, roundTwo_zero, calculatePercentage]
  · have hlt : 0 < sumAmounts (entriesFor incomeDb uid month) :=
      lt_of_le_of_ne hti (Ne.symm h0)
    simp [summaryMetrics, hlt, h0, calculatePercentage]

/-- Witness for C2 on a one-entry-per-ledger month. -/
theorem summary_metrics_correct_witness :
    (summaryMetrics
      [{ id := "i1", userId := "u1", categoryId := "s1", month := "2024-03",
         amount := 100, notes := none }]
      [{ id := "e1", userId := "u1", categoryId := "v1", month := "2024-03",
         amount := 40, notes := none }]
      [{ id := "s1", userId := "u1", categoryId := "n1", month := "2024-03",
         amount := 30, notes := none }] "u1" "2024-03").netCashFlow =
      (summaryMetrics
        [{ id := "i1", userId := "u1", categoryId := "s1", month := "2024-03",
           amount := 100, notes := none }]
        [{ id := "e1", userId := "u1", categoryId := "v1", month := "2024-03",
           amount := 40, notes := none }]
        [{ id := "s1", userId := "u1", categoryId := "n1", month := "2024-03",
           amount := 30, notes := none }] "u1" "2024-03").totalIncome -
      (summaryMetrics
        [{ id := "i1", userId := "u1", categoryId := "s1", month := "2024-03",
           amount := 100, notes := none }]
        [{ id := "e1", userId := "u1", categoryId := "v1", month := "2024-03",
           amount := 40, notes := none }]
        [{ id := "s1", userId := "u1", categoryId := "n1", month := "2024-03",
           amount := 30, notes := none }] "u1" "2024-03").totalExpenses -
      (summaryMetrics
        [{ id := "i1", userId := "u1", categoryId := "s1", month := "2024-03",
           amount := 100, notes := none }]
        [{ id := "e1", userId := "u1", categoryId := "v1", month := "2024-03",
           amount := 40, notes := none }]
        [{ id := "s1", userId := "u1", categoryId := "n1", month := "2024-03",
           amount := 30, notes := none }] "u1" "2024-03").totalSavings ∧
    (summaryMetrics
      [{ id := "i1", userId := "u1", categoryId := "s1", month := "2024-03",
         amount := 100, notes := none }]
      [{ id := "e1", userId := "u1", categoryId := "v1", month := "2024-03",
         amount := 40, notes := none }]
      [{ id := "s1", userId := "u1", categoryId := "n1", month := "2024-03",
         amount := 30, notes := none }] "u1" "2024-03").savingsRate =
      calculatePercentage
        (summaryMetrics
          [{ id := "i1", userId := "u1", categoryId := "s1", month := "2024-03",
             amount := 100, notes := none }]
          [{ id := "e1", userId := "u1", categoryId := "v1", month := "2024-03",
             amount := 40, notes := none }]
          [{ id := "s1", userId := "u1", categoryId := "n1", month := "2024-03",
             amount := 30, notes := none }] "u1" "2024-03").totalSavings
        (summaryMetrics
          [{ id := "i1", userId := "u1", categoryId := "s1", month := "2024-03",
             amount := 100, notes := none }]
          [{ id := "e1", userId := "u1", categoryId := "v1", month := "2024-03",
             amount := 40, notes := none }]
          [{ id := "s1", userId := "u1", categoryId := "n1", month := "2024-03",
             amount := 30, notes := none }] "u1" "2024-03").totalIncome := by
  have h := summary_metrics_correct
    [{ id := "i1", userId := "u1", categoryId := "s1", month := "2024-03",
       amount := 100, notes := none }]
    [{ id := "e1", userId := "u1", categoryId := "v1", month := "2024-03",
       amount := 40, notes := none }]
    [{ id := "s1", userId := "u1", categoryId := "n1", month := "2024-03",
       amount := 30, notes := none }] "u1" "2024-03"
    (by decide)
  exact ⟨h.2.2.2.1, h.2.2.2.2.1⟩

/-- Helper: the month index of a normalized month is the index it was
built from. -/
theorem ymIndex_ymOfIndex (i : Int) : ymIndex (ymOfIndex i) = i := by
  simp only [ymIndex, ymOfIndex]
  omega

/-- Helper: normalization always lands on a month in 1..12. -/
theorem ymOfIndex_month_bounds (i : Int) :
    1 ≤ (ymOfIndex i).month ∧ (ymOfIndex i).month ≤ 12 := by
  simp only [ymOfIndex]
  omega

/-- Helper: normalization is the identity on valid months. -/
theorem ymOfIndex_ymIndex (d : MonthDate) (h1 : 1 ≤ d.month) (h2 : d.month ≤ 12) :
    ymOfIndex (ymIndex d) = d := by
  obtain ⟨y, m⟩ := d
  dsimp only at h1 h2
  simp only [ymIndex, ymOfIndex, MonthDate.mk.injEq]
  omega

/-- Helper: the increment-with-rollover loop step advances the month
index by one. -/
theorem nextMonth_index (d : MonthDate) (h1 : 1 ≤ d.month) (h2 : d.month ≤ 12) :
    nextMonth d = ymOfIndex (ymIndex d + 1) := by
  obtain ⟨y, m⟩ := d
  dsimp only at h1 h2
  simp only [nextMonth, ymIndex, ymOfIndex]
  split <;> (simp only [MonthDate.mk.injEq]; constructor <;> omega)

/-- Helper: starting from a valid month, `n` loop iterations produce
the `n` consecutive normalized months from the start index. -/
theorem monthsLoop_eq (n : Nat) :
    ∀ d : MonthDate, 1 ≤ d.month → d.month ≤ 12 →
      monthsLoop n d = (List.range n).map (fun i : Nat => ymOfIndex (ymIndex d + (i : Int))) := by
  induction n with
  | zero => intro d _ _; simp [monthsLoop]
  | succ n ih =>
      intro d h1 h2
      have hb := ymOfIndex_month_bounds (ymIndex d + 1)
      rw [monthsLoop, nextMonth_index d h1 h2, ih _ hb.1 hb.2,
        List.range_succ_eq_map]
      simp only [List.map_cons, List.map_map, ymIndex_ymOfIndex, Nat.cast_zero,
        add_zero]
      congr 1
      · exact (ymOfIndex_ymIndex d h1 h2).symm
      · apply List.map_congr_left
        intro i _
        simp only [Function.comp_apply]
        congr 1
        push_cast
        ring

/-- Claim C8: for a positive lookback of `months`, the derived range
has `to` equal to the current month and `from` at month index
`ymIndex now − months + 1` (current minus months−1); enumerating the
inclusive range yields exactly `months` consecutive normalized
months in ascending index order — year rollovers included — whose
last element is the current month. -/
theorem month_range_derivation (now : MonthDate) (months : Nat)
    (h1 : 1 ≤ now.month) (h2 : now.month ≤ 12) (hm : 1 ≤ months) :
    (getMonthRange now months).2 = now ∧
    ymIndex (getMonthRange now months).1 = ymIndex now - months + 1 ∧
    getMonthsList (getMonthRange now months).1 (getMonthRange now months).2 =
      (List.range months).map
        (fun i : Nat => ymOfIndex (ymIndex (getMonthRange now months).1 + (i : Int))) ∧
    (getMonthsList (getMonthRange now months).1 (getMonthRange now months).2).length
      = months ∧
    ymOfIndex (ymIndex (getMonthRange now months).1 + ((months : Int) - 1)) = now := by
  have hfrom : (getMonthRange now months).1 =
      ymOfIndex (ymIndex now - months + 1) := by
    simp only [getMonthRange, ymIndex]
  have hidx : ymIndex (getMonthRange now months).1 = ymIndex now - months + 1 := by
    rw [hfrom, ymIndex_ymOfIndex]
  have hb := ymOfIndex_month_bounds (ymIndex now - months + 1)
  have hcount : (ymIndex (getMonthRange now months).2 + 1 -
      ymIndex (getMonthRange now months).1).toNat = months := by
    have : (getMonthRange now months).2 = now := rfl
    rw [this, hidx]
    omega
  have hlist : getMonthsList (getMonthRange now months).1 (getMonthRange now months).2 =
      (List.range months).map
        (fun i : Nat => ymOfIndex (ymIndex (getMonthRange now months).1 + (i : Int))) := by
    rw [getMonthsList, hcount]
    exact monthsLoop_eq months _ (by rw [hfrom]; exact hb.1) (by rw [hfrom]; exact hb.2)
  refine ⟨rfl, hidx, hlist, ?_, ?_⟩
  · rw [hlist]; simp
  · have harg : ymIndex (getMonthRange now months).1 + ((months : Int) - 1)
        = ymIndex now := by
      rw [hidx]; ring
    rw [harg]
    exact ymOfIndex_ymIndex now h1 h2

/-- Witness for C8: a four-month lookback ending February 2025 starts
at November 2024 and lists the four months across the year boundary. -/
theorem month_range_derivation_witness :
    (getMonthRange { year := 2025, month := 2 } 4).2 = { year := 2025, month := 2 } ∧
    ymIndex (getMonthRange { year := 2025, month := 2 } 4).1 =
      ymIndex { year := 2025, month := 2 } - 4 + 1 ∧
    getMonthsList (getMonthRange { year := 2025, month := 2 } 4).1
        (getMonthRange { year := 2025, month := 2 } 4).2 =
      (List.range 4).map
        (fun i : Nat => ymOfIndex (ymIndex (getMonthRange { year := 2025, month := 2 } 4).1 + (i : Int))) ∧
    (getMonthsList (getMonthRange { year := 2025, month := 2 } 4).1
        (getMonthRange { year := 2025, month := 2 } 4).2).length = 4 ∧
    ymOfIndex (ymIndex (getMonthRange { year := 2025, month := 2 } 4).1 + ((4 : Int) - 1))
      = { year := 2025, month := 2 } :=
  month_range_derivation { year := 2025, month := 2 } 4
    (by decide) (by decide) (by decide)

end WealthPlus
